import Mathlib

/-!
Verification of the certificate XQueue callback handlers and the
certificate visibility rule of this repository
(`lms/djangoapps/certificates/views/xqueue.py` and the visibility test
table of `lms/djangoapps/certificates/tests/test_utils.py`), as a shallow
embedding in Lean 4.

Timestamps are modelled as integers (days); `now` is passed explicitly
where the source calls `datetime.now`.
-/

namespace Certificates

/-! ## Visibility rule -/

/-- Modelled from the spec: the implementation of
`should_certificate_be_visible` lives in
`lms/djangoapps/certificates/utils.py`, which is not part of the examined
sources (only its test table is).  This definition is the five-step
first-match reference policy of spec section 4.1, faithful to the spec
wording: self-paced wins; `early_with_info` shows; `early_no_info`
follows `show_before_end`; otherwise show when `show_before_end`, or the
run has ended, or an available date exists strictly in the past. -/
def shouldCertificateBeVisibleSpec (now : Int) (certificates_display_behavior : String)
    (certificates_show_before_end : Bool) (has_ended : Bool)
    (certificate_available_date : Option Int) (self_paced : Bool) : Bool :=
  if self_paced then true
  else if certificates_display_behavior == "early_with_info" then true
  else if certificates_display_behavior == "early_no_info" then certificates_show_before_end
  else if certificates_show_before_end then true
  else if has_ended then true
  else
    match certificate_available_date with
    | none => false
    | some d => decide (d < now)

/-- Modelled from the spec: same missing implementation of
`should_certificate_be_visible`, with the `early_no_info` branch amended
to return `true` unconditionally, which is what the repository test table
in `lms/djangoapps/certificates/tests/test_utils.py` requires
(row `early_no_info, False, False, _LAST_MONTH, False` expects `True`). -/
def should_certificate_be_visible (now : Int) (certificates_display_behavior : String)
    (certificates_show_before_end : Bool) (has_ended : Bool)
    (certificate_available_date : Option Int) (self_paced : Bool) : Bool :=
  if self_paced then true
  else if certificates_display_behavior == "early_with_info" then true
  else if certificates_display_behavior == "early_no_info" then true
  else if certificates_show_before_end then true
  else if has_ended then true
  else
    match certificate_available_date with
    | none => false
    | some d => decide (d < now)

/-- One row of the `test_should_certificate_be_visible` data table. -/
structure VisibilityCase where
  display_behavior : String
  show_before_end : Bool
  has_ended : Bool
  available_date : Option Int
  self_paced : Bool
  expected : Bool
deriving DecidableEq, Repr

/-- The ten rows of the `ddt.data` table of
`test_should_certificate_be_visible` in
`lms/djangoapps/certificates/tests/test_utils.py`, with
`_LAST_MONTH = today - 30`, `_LAST_WEEK = today - 7`,
`_NEXT_WEEK = today + 7` measured in days. -/
def visibility_test_cases (today : Int) : List VisibilityCase :=
  [ ⟨"early_with_info", true, true, some (today - 30), false, true⟩,
    ⟨"early_no_info", false, false, some (today - 30), false, true⟩,
    ⟨"end", true, false, some (today - 30), false, true⟩,
    ⟨"end", false, true, some (today - 30), false, true⟩,
    ⟨"end", false, false, some (today + 7), false, false⟩,
    ⟨"end", false, false, some (today - 7), false, true⟩,
    ⟨"end", false, false, none, false, false⟩,
    ⟨"early_with_info", false, false, none, false, true⟩,
    ⟨"end", false, false, some (today + 7), false, false⟩,
    ⟨"end", false, false, some (today + 7), true, true⟩ ]

/-- A visibility function passes one test row when it returns the
expected value on the row inputs, evaluated at time `today`. -/
def passesVisibilityCase
    (f : Int → String → Bool → Bool → Option Int → Bool → Bool)
    (today : Int) (tc : VisibilityCase) : Bool :=
  f today tc.display_behavior tc.show_before_end tc.has_ended
      tc.available_date tc.self_paced == tc.expected

/-! ## JSON values and HTTP requests -/

/-- A JSON value as used by the callback payloads: only strings and
`null` occur in the fields the handlers read. -/
inductive JVal where
  | str (s : String)
  | null
deriving DecidableEq, Repr

/-- A decoded JSON object: an association list of fields. -/
structure JObj where
  fields : List (String × JVal)
deriving DecidableEq, Repr

/-- Python `dict.get`: the value of the first binding of `k`, when present. -/
def JObj.get (o : JObj) (k : String) : Option JVal :=
  (o.fields.find? (fun p => p.1 == k)).map Prod.snd

/-- Python `k in dict`: whether the key is present at all. -/
def JObj.containsKey (o : JObj) (k : String) : Bool :=
  o.fields.any (fun p => p.1 == k)

/-- `dict.get` restricted to string values: the result of a Python
`dict.get` that is subsequently used where a string (or `None`) is
expected; a missing key and an explicit `null` both yield `none`. -/
def JObj.getStr (o : JObj) (k : String) : Option String :=
  match o.get k with
  | some (JVal.str s) => some s
  | _ => none

/-- The outcome of Python `json.loads` on a posted string: a decode
failure (`ValueError`/`TypeError`), a JSON object, or a valid JSON value
that is not an object (list, string, number, ...) — the last loads
without an exception but is not a dict, so a later `.get` or string
subscript on it raises. -/
inductive LoadResult where
  | failure
  | obj (o : JObj)
  | nonObj
deriving DecidableEq, Repr

/-- A form-encoded POST value: the raw string together with the result
of `json.loads` on it. -/
structure PostVal where
  raw : String
  decoded : LoadResult
deriving DecidableEq, Repr

/-- An incoming HTTP request, with the framework-provided facts the
handlers consult: the method, the POST dictionary, the authenticated
user, and the verdict of the `BadRequestRateLimiter` middleware
(`is_rate_limit_exceeded`), which lives outside the examined sources and
is modelled as a per-request fact. -/
structure Request where
  method : String
  post : List (String × PostVal)
  userAuthenticated : Bool
  username : String
  rateLimitExceeded : Bool
deriving DecidableEq, Repr

/-- Python `request.POST.get(k)` / `request.POST[k]` lookup. -/
def Request.postGet (r : Request) (k : String) : Option PostVal :=
  (r.post.find? (fun p => p.1 == k)).map Prod.snd

/-- The Python exceptions the handlers can let escape. -/
inductive PyExn where
  | typeError
  | valueError
  | keyError (k : String)
  | invalidKeyError
  | attributeError
deriving DecidableEq, Repr

instance exceptDecEq {ε α : Type} [DecidableEq ε] [DecidableEq α] :
    DecidableEq (Except ε α) := fun a b =>
  match a, b with
  | Except.ok x, Except.ok y =>
    if h : x = y then Decidable.isTrue (by rw [h]) else Decidable.isFalse (by simp [h])
  | Except.error x, Except.error y =>
    if h : x = y then Decidable.isTrue (by rw [h]) else Decidable.isFalse (by simp [h])
  | Except.ok _, Except.error _ => Decidable.isFalse (by simp)
  | Except.error _, Except.ok _ => Decidable.isFalse (by simp)

/-- Modelled from the spec: `CourseKey.from_string` of the external
`opaque_keys` package, which fails with an invalid-identifier error on a
malformed course-run id.  A serialized course key is modelled as valid
when it carries the `course-v1:` scheme. -/
def courseKeyFromString (s : String) : Except PyExn String :=
  if "course-v1:".data.isPrefixOf s.data then Except.ok s
  else Except.error PyExn.invalidKeyError

/-! ## ExampleCertificate data model -/

/-- The status values of an `ExampleCertificate`. -/
inductive CertStatus where
  | pending
  | success
  | error
deriving DecidableEq, Repr

/-- An `ExampleCertificate` record, per the data model of spec section 3:
identified by its `uuid`, authorized by its shared-secret `access_key`. -/
structure ExampleCertificate where
  uuid : String
  access_key : String
  status : CertStatus
  download_url : Option String
  error_reason : Option String
deriving DecidableEq, Repr

/-- Modelled from the spec: `ExampleCertificate.update_status` of
`lms/djangoapps/certificates/models.py`, which is not part of the
examined sources.  Per spec section 3 it sets the status, stores the
download URL only on SUCCESS and the error reason only on ERROR. -/
def ExampleCertificate.update_status (c : ExampleCertificate) (s : CertStatus)
    (url : Option String) (reason : Option String) : ExampleCertificate :=
  { c with
    status := s
    download_url := if s = CertStatus.success then url else c.download_url
    error_reason := if s = CertStatus.error then reason else c.error_reason }

/-- `ExampleCertificate.objects.get(uuid=uuid, access_key=access_key)`:
the first record matching both credentials; a `None` credential
(missing or null JSON field) matches nothing, as the ORM columns are
non-null. -/
def lookupExampleCert (store : List ExampleCertificate)
    (uuid : Option String) (key : Option String) : Option ExampleCertificate :=
  match uuid, key with
  | some u, some k => store.find? (fun c => c.uuid == u && c.access_key == k)
  | _, _ => none

/-- Saving a mutated record back: every stored copy of the fetched
record is replaced by the updated one. -/
def saveCert (store : List ExampleCertificate)
    (old updated : ExampleCertificate) : List ExampleCertificate :=
  store.map (fun c => if c == old then updated else c)

/-! ## update_example_certificate -/

/-- How a run of `update_example_certificate` answers: the 403
rate-limit rejection, a 400 bad request, the `Http404` raised on a
failed lookup, the 200 JSON success envelope, the 405 produced by the
`require_POST` decorator — or an exception escaping the handler (the
`AttributeError` of calling `.get` on a decoded non-object payload,
which no `except` clause covers). -/
inductive ExResponse where
  | forbidden (msg : String)
  | badRequest (msg : String)
  | notFound
  | jsonOk (return_code : Nat)
  | methodNotAllowed
  | raised (e : PyExn)
deriving DecidableEq, Repr

/-- The observable outcome of one run of `update_example_certificate`:
the HTTP response, the resulting certificate store, the number of
`tick_request_counter` calls (0 or 1) and the number of certificate
lookup attempts performed (0 or 1). -/
structure ExOutcome where
  response : ExResponse
  store : List ExampleCertificate
  ticks : Nat
  lookups : Nat
deriving DecidableEq, Repr

/-- The processing of `update_example_certificate` after both payload
fields have been decoded (source lines 155-195): look the record up by
`(body.username, header.lms_key)`, 404 on a miss; on a hit apply the
error transition when the body has an `error` key, otherwise require a
`url` and apply the success transition. -/
def exProcess (body header : JObj) (store : List ExampleCertificate) : ExOutcome :=
  let uuid := body.getStr "username"
  let key := header.getStr "lms_key"
  match lookupExampleCert store uuid key with
  | none => ⟨ExResponse.notFound, store, 1, 1⟩
  | some cert =>
    if body.containsKey "error" then
      let reason := body.getStr "error_reason"
      ⟨ExResponse.jsonOk 0,
        saveCert store cert (cert.update_status CertStatus.error none reason), 0, 1⟩
    else
      match body.getStr "url" with
      | none =>
        ⟨ExResponse.badRequest "Parameter download_url is required for successfully generated certificates.",
          store, 1, 1⟩
      | some url =>
        ⟨ExResponse.jsonOk 0,
          saveCert store cert (cert.update_status CertStatus.success (some url) none), 0, 1⟩

/-- The `update_example_certificate` view (source lines 102-195):
`require_POST`, then the rate-limit gate, then presence of
`xqueue_body` and `xqueue_header`, then `json.loads` on both inside a
`try` catching only `ValueError`/`TypeError` (each of these failures
ticking the bad-request counter and answering 400).  When both fields
load but either is a non-object JSON value, the `.get` calls at source
line 158-159 raise an `AttributeError` that the surrounding `try`
(catching only `DoesNotExist`) lets escape — no tick, no lookup.  With
two decoded objects, processing continues in `exProcess`. -/
def update_example_certificate (req : Request) (store : List ExampleCertificate) : ExOutcome :=
  if req.method ≠ "POST" then ⟨ExResponse.methodNotAllowed, store, 0, 0⟩
  else if req.rateLimitExceeded then ⟨ExResponse.forbidden "Rate limit exceeded", store, 0, 0⟩
  else
    match req.postGet "xqueue_body" with
    | none => ⟨ExResponse.badRequest "Parameter xqueue_body is required.", store, 1, 0⟩
    | some bodyRaw =>
      match req.postGet "xqueue_header" with
      | none => ⟨ExResponse.badRequest "Parameter xqueue_header is required.", store, 1, 0⟩
      | some headerRaw =>
        match bodyRaw.decoded, headerRaw.decoded with
        | LoadResult.failure, _ =>
          ⟨ExResponse.badRequest "Parameters must be JSON-serialized.", store, 1, 0⟩
        | _, LoadResult.failure =>
          ⟨ExResponse.badRequest "Parameters must be JSON-serialized.", store, 1, 0⟩
        | LoadResult.nonObj, _ => ⟨ExResponse.raised PyExn.attributeError, store, 0, 0⟩
        | LoadResult.obj _, LoadResult.nonObj =>
          ⟨ExResponse.raised PyExn.attributeError, store, 0, 0⟩
        | LoadResult.obj body, LoadResult.obj header => exProcess body header store

/-- The validation phase of `update_example_certificate`: the decoded
body and header when the request is a POST, is not rate-limited, carries
both fields and both decode as JSON objects. -/
def exParsed (req : Request) : Option (JObj × JObj) :=
  if req.method ≠ "POST" then none
  else if req.rateLimitExceeded then none
  else
    match req.postGet "xqueue_body", req.postGet "xqueue_header" with
    | some bodyRaw, some headerRaw =>
      match bodyRaw.decoded, headerRaw.decoded with
      | LoadResult.obj body, LoadResult.obj header => some (body, header)
      | _, _ => none
    | _, _ => none

/-! ## update_certificate (legacy path) -/

/-- A `GeneratedCertificate` record as the legacy callback sees it:
owner username, course-run id, opaque status string, legacy key. -/
structure GeneratedCertificate where
  username : String
  courseId : String
  status : String
  key : String
deriving DecidableEq, Repr

/-- Python `dict[k]`: the value, or a `KeyError`. -/
def JObj.getItem (o : JObj) (k : String) : Except PyExn JVal :=
  match o.get k with
  | some v => Except.ok v
  | none => Except.error (PyExn.keyError k)

/-- Python string subscript on a loaded payload: a JSON object yields
the field or a `KeyError`; subscripting a non-object JSON value (list,
string, number) with a string key raises `TypeError`. -/
def LoadResult.getItem : LoadResult → String → Except PyExn JVal
  | LoadResult.obj o, k => o.getItem k
  | _, _ => Except.error PyExn.typeError

/-- `CourseKey.from_string` applied to a JSON field value: `null`
(Python `None`) is rejected with the invalid-identifier error, a string
is parsed as a serialized course key. -/
def courseKeyFromJVal (v : JVal) : Except PyExn String :=
  match v with
  | JVal.str s => courseKeyFromString s
  | JVal.null => Except.error PyExn.invalidKeyError

/-- How a run of `update_certificate` ends: Python `None` for a skipped
non-POST body, a `{return_code, content}` JSON response, or an
exception escaping the handler. -/
inductive UpdResult where
  | noResponse
  | response (return_code : Nat) (content : String)
  | raised (e : PyExn)
deriving DecidableEq, Repr

/-- The observable outcome of one run of `update_certificate`: the
result, the (never mutated) certificate store, and the number of
critical-level log emissions. -/
structure UpdOutcome where
  result : UpdResult
  store : List GeneratedCertificate
  criticalLogs : Nat
deriving DecidableEq, Repr

/-- The `update_certificate` view (source lines 54-99).  Outside any
`try`, `json.loads` is applied to `request.POST.get` of each field: a
missing field gives `json.loads(None)`, a `TypeError`; a non-JSON field
a `ValueError`; a field that is valid non-object JSON loads fine, and
the string subscript on it later raises an uncaught `TypeError`.
Inside the `try`, `xqueue_body[course_id]`,
`CourseKey.from_string`, `xqueue_body[username]` and
`xqueue_header[lms_key]` are evaluated in that order; only the
`DoesNotExist` of the record lookup is caught, producing the
`unable to lookup key` response and a critical log.  A found record is
never mutated: the handler logs and answers `allowlist certificate`. -/
def update_certificate (req : Request) (store : List GeneratedCertificate) : UpdOutcome :=
  if req.method ≠ "POST" then ⟨UpdResult.noResponse, store, 0⟩
  else
    match req.postGet "xqueue_body" with
    | none => ⟨UpdResult.raised PyExn.typeError, store, 0⟩
    | some bodyRaw =>
      match bodyRaw.decoded with
      | LoadResult.failure => ⟨UpdResult.raised PyExn.valueError, store, 0⟩
      | bodyLoaded =>
        match req.postGet "xqueue_header" with
        | none => ⟨UpdResult.raised PyExn.typeError, store, 0⟩
        | some headerRaw =>
          match headerRaw.decoded with
          | LoadResult.failure => ⟨UpdResult.raised PyExn.valueError, store, 0⟩
          | headerLoaded =>
            match bodyLoaded.getItem "course_id" with
            | Except.error e => ⟨UpdResult.raised e, store, 0⟩
            | Except.ok cid =>
              match courseKeyFromJVal cid with
              | Except.error e => ⟨UpdResult.raised e, store, 0⟩
              | Except.ok courseKey =>
                match bodyLoaded.getItem "username" with
                | Except.error e => ⟨UpdResult.raised e, store, 0⟩
                | Except.ok uname =>
                  match headerLoaded.getItem "lms_key" with
                  | Except.error e => ⟨UpdResult.raised e, store, 0⟩
                  | Except.ok lmsKey =>
                    match store.find? (fun c =>
                        JVal.str c.username == uname && c.courseId == courseKey
                          && JVal.str c.key == lmsKey) with
                    | none => ⟨UpdResult.response 1 "unable to lookup key", store, 1⟩
                    | some _ => ⟨UpdResult.response 1 "allowlist certificate", store, 0⟩

/-! ## request_certificate -/

/-- How a run of `request_certificate` ends: Python `None` for non-POST,
a `{add_status: ...}` JSON response, or an escaping exception. -/
inductive ReqResult where
  | noResponse
  | addStatus (s : String)
  | raised (e : PyExn)
deriving DecidableEq, Repr

/-- The observable outcome of one run of `request_certificate`: the
result and the number of `generate_certificate_task` enqueues. -/
structure ReqOutcome where
  result : ReqResult
  tasks : Nat
deriving DecidableEq, Repr

/-- `CourseKey.from_string(request.POST.get(course_id))`: a missing
field passes `None`, which `from_string` rejects with the
invalid-identifier error; otherwise the raw field string is parsed. -/
def courseKeyFromPost (v : Option PostVal) : Except PyExn String :=
  match v with
  | none => Except.error PyExn.invalidKeyError
  | some pv => courseKeyFromString pv.raw

/-- The `request_certificate` view (source lines 30-51).
`certStatusFor` stands for the external status lookup
`certificate_status_for_student` (its implementation is outside the
examined sources): it maps the username and course key to the status
string reported before enqueueing.  An authenticated POST reads the
current status, enqueues one generation task and reports that status; an
unauthenticated POST answers the `ERRORANONYMOUSUSER` sentinel with no
task; a non-POST request produces no response. -/
def request_certificate (certStatusFor : String → String → String)
    (req : Request) : ReqOutcome :=
  if req.method ≠ "POST" then ⟨ReqResult.noResponse, 0⟩
  else if req.userAuthenticated then
    match courseKeyFromPost (req.postGet "course_id") with
    | Except.error e => ⟨ReqResult.raised e, 0⟩
    | Except.ok courseKey => ⟨ReqResult.addStatus (certStatusFor req.username courseKey), 1⟩
  else ⟨ReqResult.addStatus "ERRORANONYMOUSUSER", 0⟩

/-! ## Helper lemmas -/

/-- After successful validation, `update_example_certificate` is
`exProcess` on the decoded payloads. -/
theorem update_example_certificate_eq_exProcess (req : Request)
    (store : List ExampleCertificate) (b h : JObj)
    (hp : exParsed req = some (b, h)) :
    update_example_certificate req store = exProcess b h store := by
  by_cases hm : req.method = "POST"
  · by_cases hr : req.rateLimitExceeded
    · simp [exParsed, hm, hr] at hp
    · cases hb : req.postGet "xqueue_body" with
      | none => simp [exParsed, hm, hr, hb] at hp
      | some bodyRaw =>
        cases hh : req.postGet "xqueue_header" with
        | none => simp [exParsed, hm, hr, hb, hh] at hp
        | some headerRaw =>
          cases hbd : bodyRaw.decoded with
          | failure => simp [exParsed, hm, hr, hb, hh, hbd] at hp
          | nonObj => simp [exParsed, hm, hr, hb, hh, hbd] at hp
          | obj body =>
            cases hhd : headerRaw.decoded with
            | failure => simp [exParsed, hm, hr, hb, hh, hbd, hhd] at hp
            | nonObj => simp [exParsed, hm, hr, hb, hh, hbd, hhd] at hp
            | obj header =>
              simp [exParsed, hm, hr, hb, hh, hbd, hhd] at hp
              simp [update_example_certificate, hm, hr, hb, hh, hbd, hhd, hp.1, hp.2]
  · simp [exParsed, hm] at hp

/-! ## C1: visibility rule vs the five-step reference policy -/

/-- C1 counterexample: the five-step first-match policy of spec 4.1,
taken literally, fails the repository test table: on the row
`(early_no_info, showBeforeEnd=false, hasEnded=false, availableDate=past,
selfPaced=false)` the policy returns `showBeforeEnd = false` while the
test expects `true`.  The claimed equality of the visibility rule and
the policy is therefore false. -/
theorem visibility_policy_fails_test_table :
    ((visibility_test_cases 0).all
      (passesVisibilityCase shouldCertificateBeVisibleSpec 0)) = false := by
  decide

/-- C1 (amended): with step 3 amended to show certificates
unconditionally under `early_no_info`, the visibility rule passes every
row of the repository test table at every evaluation time, and for every
self-paced input it returns `true` regardless of the other four
parameters. -/
theorem should_certificate_be_visible_correct (today : Int) :
    ((visibility_test_cases today).all
      (passesVisibilityCase should_certificate_be_visible today)) = true
    ∧ ∀ (b : String) (sbe he : Bool) (ad : Option Int),
        should_certificate_be_visible today b sbe he ad true = true := by
  refine ⟨?_, ?_⟩
  · simp [visibility_test_cases, passesVisibilityCase, should_certificate_be_visible]
  · intro b sbe he ad
    simp [should_certificate_be_visible]

/-! ## C2-C6: example-certificate callback -/

/-- C2: for every validated request whose `(body.username, header.lms_key)`
pair matches a record: an `error` key in the body moves the record to
ERROR storing `body.error_reason`; otherwise a present `body.url` moves
it to SUCCESS storing the URL; otherwise the handler answers a 400
missing-parameter response, ticks the bad-request counter once, and
leaves the store unchanged. -/
theorem update_example_certificate_matched (req : Request)
    (store : List ExampleCertificate) (b h : JObj) (cert : ExampleCertificate)
    (hp : exParsed req = some (b, h))
    (hc : lookupExampleCert store (b.getStr "username") (h.getStr "lms_key") = some cert) :
    (b.containsKey "error" = true →
      update_example_certificate req store =
        ⟨ExResponse.jsonOk 0,
          saveCert store cert
            (cert.update_status CertStatus.error none (b.getStr "error_reason")), 0, 1⟩
      ∧ (cert.update_status CertStatus.error none (b.getStr "error_reason")).status
          = CertStatus.error
      ∧ (cert.update_status CertStatus.error none (b.getStr "error_reason")).error_reason
          = b.getStr "error_reason")
    ∧ (b.containsKey "error" = false →
        (∀ url, b.getStr "url" = some url →
          update_example_certificate req store =
            ⟨ExResponse.jsonOk 0,
              saveCert store cert (cert.update_status CertStatus.success (some url) none), 0, 1⟩
          ∧ (cert.update_status CertStatus.success (some url) none).status = CertStatus.success
          ∧ (cert.update_status CertStatus.success (some url) none).download_url = some url)
        ∧ (b.getStr "url" = none →
          update_example_certificate req store =
            ⟨ExResponse.badRequest
              "Parameter download_url is required for successfully generated certificates.",
              store, 1, 1⟩)) := by
  rw [update_example_certificate_eq_exProcess req store b h hp]
  refine ⟨?_, ?_⟩
  · intro he
    simp [exProcess, hc, he, ExampleCertificate.update_status]
  · intro he
    refine ⟨?_, ?_⟩
    · intro url hu
      simp [exProcess, hc, he, hu, ExampleCertificate.update_status]
    · intro hu
      simp [exProcess, hc, he, hu]

/-- C3: a validated request whose credential pair matches no record
yields exactly the 404 outcome with one counter tick and an untouched
store; two such runs, regardless of which of the two credentials is
wrong, produce identical observable outcomes. -/
theorem update_example_certificate_not_found (req1 req2 : Request)
    (store : List ExampleCertificate) (b1 h1 b2 h2 : JObj)
    (hp1 : exParsed req1 = some (b1, h1))
    (hp2 : exParsed req2 = some (b2, h2))
    (hc1 : lookupExampleCert store (b1.getStr "username") (h1.getStr "lms_key") = none)
    (hc2 : lookupExampleCert store (b2.getStr "username") (h2.getStr "lms_key") = none) :
    update_example_certificate req1 store = ⟨ExResponse.notFound, store, 1, 1⟩
    ∧ update_example_certificate req2 store = ⟨ExResponse.notFound, store, 1, 1⟩
    ∧ update_example_certificate req1 store = update_example_certificate req2 store := by
  rw [update_example_certificate_eq_exProcess req1 store b1 h1 hp1,
    update_example_certificate_eq_exProcess req2 store b2 h2 hp2]
  simp [exProcess, hc1, hc2]

/-- C5: a rate-limited POST short-circuits to the 403 response with zero
lookup attempts, zero counter ticks, and an untouched store. -/
theorem update_example_certificate_rate_limited (req : Request)
    (store : List ExampleCertificate)
    (hm : req.method = "POST") (hr : req.rateLimitExceeded = true) :
    update_example_certificate req store =
      ⟨ExResponse.forbidden "Rate limit exceeded", store, 0, 0⟩ := by
  simp [update_example_certificate, hm, hr]

/-- The bad-request outcomes enumerated by the spec (written from the
spec wording, for comparison with the embedding): a non-rate-limited
POST with a missing `xqueue_body`, a missing `xqueue_header`, a body or
header that is not valid JSON, a failed `(uuid, accessKey)` lookup, or a
matched record with neither an `error` key nor a `url`.  A payload pair
that loads as valid JSON with a non-object value crashes the handler
before any tick, so it is not a bad-request outcome. -/
def exBadRequestOutcome (req : Request) (store : List ExampleCertificate) : Bool :=
  req.method == "POST" && !req.rateLimitExceeded &&
    (match req.postGet "xqueue_body", req.postGet "xqueue_header" with
     | none, _ => true
     | some _, none => true
     | some bodyRaw, some headerRaw =>
       match bodyRaw.decoded, headerRaw.decoded with
       | LoadResult.failure, _ => true
       | _, LoadResult.failure => true
       | LoadResult.obj body, LoadResult.obj header =>
         (match lookupExampleCert store (body.getStr "username") (header.getStr "lms_key") with
          | none => true
          | some _ => !body.containsKey "error" && (body.getStr "url").isNone)
       | _, _ => false)

/-- C6: the bad-request counter is ticked exactly once on exactly the
spec-enumerated outcomes and on no others; in particular every run that
completes an ERROR or SUCCESS transition leaves the counter unchanged. -/
theorem update_example_certificate_tick_iff (req : Request)
    (store : List ExampleCertificate) :
    (update_example_certificate req store).ticks =
      if exBadRequestOutcome req store then 1 else 0 := by
  by_cases hm : req.method = "POST"
  · by_cases hr : req.rateLimitExceeded
    · simp [update_example_certificate, exBadRequestOutcome, hm, hr]
    · cases hb : req.postGet "xqueue_body" with
      | none => simp [update_example_certificate, exBadRequestOutcome, hm, hr, hb]
      | some bodyRaw =>
        cases hh : req.postGet "xqueue_header" with
        | none => simp [update_example_certificate, exBadRequestOutcome, hm, hr, hb, hh]
        | some headerRaw =>
          cases hbd : bodyRaw.decoded with
          | failure =>
            simp [update_example_certificate, exBadRequestOutcome, hm, hr, hb, hh, hbd]
          | nonObj =>
            cases hhd : headerRaw.decoded with
            | failure =>
              simp [update_example_certificate, exBadRequestOutcome, hm, hr, hb, hh, hbd, hhd]
            | nonObj =>
              simp [update_example_certificate, exBadRequestOutcome, hm, hr, hb, hh, hbd, hhd]
            | obj header =>
              simp [update_example_certificate, exBadRequestOutcome, hm, hr, hb, hh, hbd, hhd]
          | obj body =>
            cases hhd : headerRaw.decoded with
            | failure =>
              simp [update_example_certificate, exBadRequestOutcome, hm, hr, hb, hh, hbd, hhd]
            | nonObj =>
              simp [update_example_certificate, exBadRequestOutcome, hm, hr, hb, hh, hbd, hhd]
            | obj header =>
              cases hl : lookupExampleCert store (body.getStr "username")
                  (header.getStr "lms_key") with
              | none =>
                simp [update_example_certificate, exBadRequestOutcome, exProcess,
                  hm, hr, hb, hh, hbd, hhd, hl]
              | some cert =>
                by_cases he : body.containsKey "error"
                · simp [update_example_certificate, exBadRequestOutcome, exProcess,
                    hm, hr, hb, hh, hbd, hhd, hl, he]
                · cases hu : body.getStr "url" with
                  | none =>
                    simp [update_example_certificate, exBadRequestOutcome, exProcess,
                      hm, hr, hb, hh, hbd, hhd, hl, he, hu]
                  | some url =>
                    simp [update_example_certificate, exBadRequestOutcome, exProcess,
                      hm, hr, hb, hh, hbd, hhd, hl, he, hu]
  · simp [update_example_certificate, exBadRequestOutcome, hm]

/-! ## Concrete inputs -/

/-- A decoded callback body reporting a generation error for uuid `u`. -/
def errorBody : JObj :=
  ⟨[("username", JVal.str "u"), ("error", JVal.str "x"), ("error_reason", JVal.str "oops")]⟩

/-- A decoded callback body reporting success for uuid `u`. -/
def successBody : JObj :=
  ⟨[("username", JVal.str "u"), ("url", JVal.str "http-example")]⟩

/-- A decoded callback body for uuid `u` with neither `error` nor `url`. -/
def bareBody : JObj := ⟨[("username", JVal.str "u")]⟩

/-- A decoded callback body naming an unknown uuid. -/
def unknownBody : JObj := ⟨[("username", JVal.str "ghost")]⟩

/-- A decoded callback header carrying access key `k`. -/
def lmsHeader : JObj := ⟨[("lms_key", JVal.str "k")]⟩

/-- A decoded callback header carrying a wrong access key. -/
def wrongHeader : JObj := ⟨[("lms_key", JVal.str "bad")]⟩

/-- A well-formed POST callback request carrying the given decoded
body and header. -/
def mkCallbackReq (body header : JObj) : Request :=
  { method := "POST"
    post := [("xqueue_body", ⟨"body-json", LoadResult.obj body⟩),
             ("xqueue_header", ⟨"header-json", LoadResult.obj header⟩)]
    userAuthenticated := false
    username := "student"
    rateLimitExceeded := false }

/-- An example certificate still PENDING. -/
def pendingCert : ExampleCertificate := ⟨"u", "k", CertStatus.pending, none, none⟩

/-- An example certificate already in the terminal SUCCESS state. -/
def successCert : ExampleCertificate :=
  ⟨"u", "k", CertStatus.success, some "http-example", none⟩

/-! ## C4: terminal states of the status state machine -/

/-- C4 counterexample: a record already in the terminal SUCCESS state,
receiving a valid callback whose body carries an `error` key, is moved to
the other terminal state ERROR: the handler never inspects the current
status, so "no transition out of a terminal state" is false. -/
theorem update_example_certificate_moves_terminal_state :
    successCert.status = CertStatus.success
    ∧ (update_example_certificate (mkCallbackReq errorBody lmsHeader) [successCert]).store
        = [⟨"u", "k", CertStatus.error, some "http-example", some "oops"⟩]
    ∧ (update_example_certificate (mkCallbackReq errorBody lmsHeader) [successCert]).response
        = ExResponse.jsonOk 0 := by
  refine ⟨rfl, ?_, ?_⟩ <;> decide

/-- C4 (amended): the operation applies the transition dictated by the
callback body regardless of the record's current status: whatever the
prior status (PENDING or either terminal state), an `error` key moves
the record to ERROR and a present `url` moves it to SUCCESS. -/
theorem update_example_certificate_status_determined_by_body (req : Request)
    (b h : JObj) (prior : CertStatus) (c : ExampleCertificate)
    (hp : exParsed req = some (b, h))
    (hu : b.getStr "username" = some c.uuid)
    (hk : h.getStr "lms_key" = some c.access_key) :
    (b.containsKey "error" = true →
      ((update_example_certificate req [{ c with status := prior }]).store.map
          ExampleCertificate.status) = [CertStatus.error])
    ∧ (∀ url, b.containsKey "error" = false → b.getStr "url" = some url →
      ((update_example_certificate req [{ c with status := prior }]).store.map
          ExampleCertificate.status) = [CertStatus.success]) := by
  rw [update_example_certificate_eq_exProcess req _ b h hp]
  have hl : lookupExampleCert [{ c with status := prior }]
      (b.getStr "username") (h.getStr "lms_key") = some { c with status := prior } := by
    simp [lookupExampleCert, hu, hk, List.find?]
  refine ⟨?_, ?_⟩
  · intro he
    simp [exProcess, hl, he, saveCert, ExampleCertificate.update_status]
  · intro url he hu2
    simp [exProcess, hl, he, hu2, saveCert, ExampleCertificate.update_status]

/-! ## C7: legacy update_certificate -/

/-- C7: a legacy callback whose fields are present, JSON, and complete:
when a record matches `(username, courseId, lms_key)` the response is
`{return_code: 1, content: allowlist certificate}` with the store
returned untouched and no critical log; when no record matches the
response is `{return_code: 1, content: unable to lookup key}` with one
critical log, the store untouched, and no exception raised. -/
theorem update_certificate_responses (req : Request)
    (store : List GeneratedCertificate) (bodyRaw headerRaw : PostVal)
    (body header : JObj) (cid : JVal) (courseKey : String) (uname lmsKey : JVal)
    (hm : req.method = "POST")
    (hb : req.postGet "xqueue_body" = some bodyRaw)
    (hbd : bodyRaw.decoded = LoadResult.obj body)
    (hh : req.postGet "xqueue_header" = some headerRaw)
    (hhd : headerRaw.decoded = LoadResult.obj header)
    (hcid : body.getItem "course_id" = Except.ok cid)
    (hck : courseKeyFromJVal cid = Except.ok courseKey)
    (hun : body.getItem "username" = Except.ok uname)
    (hlk : header.getItem "lms_key" = Except.ok lmsKey) :
    (∀ cert, store.find? (fun c => JVal.str c.username == uname && c.courseId == courseKey
          && JVal.str c.key == lmsKey) = some cert →
      update_certificate req store =
        ⟨UpdResult.response 1 "allowlist certificate", store, 0⟩)
    ∧ (store.find? (fun c => JVal.str c.username == uname && c.courseId == courseKey
          && JVal.str c.key == lmsKey) = none →
      update_certificate req store =
        ⟨UpdResult.response 1 "unable to lookup key", store, 1⟩) := by
  refine ⟨?_, ?_⟩
  · intro cert hfound
    simp [update_certificate, LoadResult.getItem,
      hm, hb, hbd, hh, hhd, hcid, hck, hun, hlk, hfound]
  · intro hmiss
    simp [update_certificate, LoadResult.getItem,
      hm, hb, hbd, hh, hhd, hcid, hck, hun, hlk, hmiss]

/-! ## C8: anonymous request_certificate -/

/-- C8: an unauthenticated POST to `request_certificate` answers the
`ERRORANONYMOUSUSER` sentinel and enqueues no generation task. -/
theorem request_certificate_anonymous (certStatusFor : String → String → String)
    (req : Request) (hm : req.method = "POST") (ha : req.userAuthenticated = false) :
    request_certificate certStatusFor req =
      ⟨ReqResult.addStatus "ERRORANONYMOUSUSER", 0⟩ := by
  simp [request_certificate, hm, ha]

/-! ## C10: non-POST methods -/

/-- C10: a non-POST request makes `request_certificate` and
`update_certificate` fall through their method guard and yield no
response at all (Python `None`), while `update_example_certificate`,
through `require_POST`, is the only one of the three to answer an
explicit method rejection. -/
theorem non_post_requests (certStatusFor : String → String → String) (req : Request)
    (store : List ExampleCertificate) (gstore : List GeneratedCertificate)
    (hm : req.method ≠ "POST") :
    request_certificate certStatusFor req = ⟨ReqResult.noResponse, 0⟩
    ∧ update_certificate req gstore = ⟨UpdResult.noResponse, gstore, 0⟩
    ∧ update_example_certificate req store =
        ⟨ExResponse.methodNotAllowed, store, 0, 0⟩ := by
  refine ⟨?_, ?_, ?_⟩ <;>
    simp [request_certificate, update_certificate, update_example_certificate, hm]

/-! ## C9: totality of the error branches -/

/-- A POST request carrying no fields at all. -/
def emptyPostReq : Request :=
  { method := "POST"
    post := []
    userAuthenticated := false
    username := "student"
    rateLimitExceeded := false }

/-- The inputs on which `update_certificate` survives its unguarded
parsing phase: both fields present, both JSON objects, `course_id`
present and a valid serialized course key, `username` and `lms_key`
present.  Anywhere outside this set the handler raises. -/
def updParseOk (req : Request) : Bool :=
  match req.postGet "xqueue_body", req.postGet "xqueue_header" with
  | some bodyRaw, some headerRaw =>
    (match bodyRaw.decoded, headerRaw.decoded with
     | LoadResult.failure, _ => false
     | _, LoadResult.failure => false
     | bodyLoaded, headerLoaded =>
       (match bodyLoaded.getItem "course_id" with
        | Except.error _ => false
        | Except.ok cid =>
          (match courseKeyFromJVal cid with
           | Except.error _ => false
           | Except.ok _ =>
             (match bodyLoaded.getItem "username", headerLoaded.getItem "lms_key" with
              | Except.ok _, Except.ok _ => true
              | _, _ => false))))
  | _, _ => false

/-- The requests on which `json.loads` succeeds on both payload fields
but at least one decodes to a non-object JSON value: both fields
present, neither a decode failure, not both objects.  On exactly these
POSTs the `.get` calls of `update_example_certificate` raise an
uncaught `AttributeError`. -/
def exNonObjPayload (req : Request) : Bool :=
  match req.postGet "xqueue_body", req.postGet "xqueue_header" with
  | some bodyRaw, some headerRaw =>
    (match bodyRaw.decoded, headerRaw.decoded with
     | LoadResult.failure, _ => false
     | _, LoadResult.failure => false
     | LoadResult.obj _, LoadResult.obj _ => false
     | _, _ => true)
  | _, _ => false

/-- `update_example_certificate` lets an exception escape — always the
`AttributeError` of `.get` on a non-dict — exactly on the
non-rate-limited POSTs whose two payload fields are present and load as
valid JSON with at least one non-object value. -/
theorem update_example_certificate_raised_iff (req : Request)
    (store : List ExampleCertificate) :
    (update_example_certificate req store).response = ExResponse.raised PyExn.attributeError
      ↔ (req.method = "POST" ∧ req.rateLimitExceeded = false
          ∧ exNonObjPayload req = true) := by
  by_cases hm : req.method = "POST"
  · by_cases hr : req.rateLimitExceeded
    · simp [update_example_certificate, exNonObjPayload, hm, hr]
    · cases hb : req.postGet "xqueue_body" with
      | none => simp [update_example_certificate, exNonObjPayload, hm, hr, hb]
      | some bodyRaw =>
        cases hh : req.postGet "xqueue_header" with
        | none => simp [update_example_certificate, exNonObjPayload, hm, hr, hb, hh]
        | some headerRaw =>
          cases hbd : bodyRaw.decoded with
          | failure =>
            simp [update_example_certificate, exNonObjPayload, hm, hr, hb, hh, hbd]
          | nonObj =>
            cases hhd : headerRaw.decoded with
            | failure =>
              simp [update_example_certificate, exNonObjPayload, hm, hr, hb, hh, hbd, hhd]
            | nonObj =>
              simp [update_example_certificate, exNonObjPayload, hm, hr, hb, hh, hbd, hhd]
            | obj header =>
              simp [update_example_certificate, exNonObjPayload, hm, hr, hb, hh, hbd, hhd]
          | obj body =>
            cases hhd : headerRaw.decoded with
            | failure =>
              simp [update_example_certificate, exNonObjPayload, hm, hr, hb, hh, hbd, hhd]
            | nonObj =>
              simp [update_example_certificate, exNonObjPayload, hm, hr, hb, hh, hbd, hhd]
            | obj header =>
              cases hl : lookupExampleCert store (body.getStr "username")
                  (header.getStr "lms_key") with
              | none =>
                simp [update_example_certificate, exNonObjPayload, exProcess,
                  hm, hr, hb, hh, hbd, hhd, hl]
              | some cert =>
                by_cases he : body.containsKey "error"
                · simp [update_example_certificate, exNonObjPayload, exProcess,
                    hm, hr, hb, hh, hbd, hhd, hl, he]
                · cases hu : body.getStr "url" with
                  | none =>
                    simp [update_example_certificate, exNonObjPayload, exProcess,
                      hm, hr, hb, hh, hbd, hhd, hl, he, hu]
                  | some url =>
                    simp [update_example_certificate, exNonObjPayload, exProcess,
                      hm, hr, hb, hh, hbd, hhd, hl, he, hu]
  · simp [update_example_certificate, exNonObjPayload, hm]

/-- Outside the non-object payload class, every run of
`update_example_certificate` answers one of the five documented
structured responses. -/
theorem update_example_certificate_structured (req : Request)
    (store : List ExampleCertificate)
    (hno : exNonObjPayload req = false) :
    (update_example_certificate req store).response = ExResponse.methodNotAllowed
    ∨ (update_example_certificate req store).response
        = ExResponse.forbidden "Rate limit exceeded"
    ∨ (∃ m, (update_example_certificate req store).response = ExResponse.badRequest m)
    ∨ (update_example_certificate req store).response = ExResponse.notFound
    ∨ (update_example_certificate req store).response = ExResponse.jsonOk 0 := by
  by_cases hm : req.method = "POST"
  · by_cases hr : req.rateLimitExceeded
    · simp [update_example_certificate, hm, hr]
    · cases hb : req.postGet "xqueue_body" with
      | none => simp [update_example_certificate, hm, hr, hb]
      | some bodyRaw =>
        cases hh : req.postGet "xqueue_header" with
        | none => simp [update_example_certificate, hm, hr, hb, hh]
        | some headerRaw =>
          cases hbd : bodyRaw.decoded with
          | failure => simp [update_example_certificate, hm, hr, hb, hh, hbd]
          | nonObj =>
            cases hhd : headerRaw.decoded with
            | failure => simp [update_example_certificate, hm, hr, hb, hh, hbd, hhd]
            | nonObj => simp [exNonObjPayload, hb, hh, hbd, hhd] at hno
            | obj header => simp [exNonObjPayload, hb, hh, hbd, hhd] at hno
          | obj body =>
            cases hhd : headerRaw.decoded with
            | failure => simp [update_example_certificate, hm, hr, hb, hh, hbd, hhd]
            | nonObj => simp [exNonObjPayload, hb, hh, hbd, hhd] at hno
            | obj header =>
              cases hl : lookupExampleCert store (body.getStr "username")
                  (header.getStr "lms_key") with
              | none =>
                simp [update_example_certificate, exProcess, hm, hr, hb, hh, hbd, hhd, hl]
              | some cert =>
                by_cases he : body.containsKey "error"
                · simp [update_example_certificate, exProcess, hm, hr, hb, hh, hbd, hhd, hl, he]
                · cases hu : body.getStr "url" with
                  | none =>
                    simp [update_example_certificate, exProcess,
                      hm, hr, hb, hh, hbd, hhd, hl, he, hu]
                  | some url =>
                    simp [update_example_certificate, exProcess,
                      hm, hr, hb, hh, hbd, hhd, hl, he, hu]
  · simp [update_example_certificate, hm]

/-- `update_certificate` lets an exception escape exactly on the POST
inputs that fail its unguarded parsing phase. -/
theorem update_certificate_raises_iff (req : Request)
    (store : List GeneratedCertificate) :
    (∃ e, (update_certificate req store).result = UpdResult.raised e)
      ↔ (req.method = "POST" ∧ updParseOk req = false) := by
  by_cases hm : req.method = "POST"
  · cases hb : req.postGet "xqueue_body" with
    | none => simp [update_certificate, updParseOk, hm, hb]
    | some bodyRaw =>
      cases hh : req.postGet "xqueue_header" with
      | none =>
        cases hbd : bodyRaw.decoded with
        | failure => simp [update_certificate, updParseOk, hm, hb, hh, hbd]
        | nonObj => simp [update_certificate, updParseOk, hm, hb, hh, hbd]
        | obj body => simp [update_certificate, updParseOk, hm, hb, hh, hbd]
      | some headerRaw =>
        cases hbd : bodyRaw.decoded with
        | failure => simp [update_certificate, updParseOk, hm, hb, hh, hbd]
        | nonObj =>
          cases hhd : headerRaw.decoded with
          | failure =>
            simp [update_certificate, updParseOk, LoadResult.getItem, hm, hb, hbd, hh, hhd]
          | nonObj =>
            simp [update_certificate, updParseOk, LoadResult.getItem, hm, hb, hbd, hh, hhd]
          | obj header =>
            simp [update_certificate, updParseOk, LoadResult.getItem, hm, hb, hbd, hh, hhd]
        | obj body =>
          cases hhd : headerRaw.decoded with
          | failure =>
            simp [update_certificate, updParseOk, LoadResult.getItem, hm, hb, hbd, hh, hhd]
          | nonObj =>
            cases hcid : body.getItem "course_id" with
            | error e =>
              simp [update_certificate, updParseOk, LoadResult.getItem,
                hm, hb, hbd, hh, hhd, hcid]
            | ok cid =>
              cases hck : courseKeyFromJVal cid with
              | error e =>
                simp [update_certificate, updParseOk, LoadResult.getItem,
                  hm, hb, hbd, hh, hhd, hcid, hck]
              | ok ck =>
                cases hun : body.getItem "username" with
                | error e =>
                  simp [update_certificate, updParseOk, LoadResult.getItem,
                    hm, hb, hbd, hh, hhd, hcid, hck, hun]
                | ok un =>
                  simp [update_certificate, updParseOk, LoadResult.getItem,
                    hm, hb, hbd, hh, hhd, hcid, hck, hun]
          | obj header =>
            cases hcid : body.getItem "course_id" with
            | error e =>
              simp [update_certificate, updParseOk, LoadResult.getItem,
                hm, hb, hbd, hh, hhd, hcid]
            | ok cid =>
              cases hck : courseKeyFromJVal cid with
              | error e =>
                simp [update_certificate, updParseOk, LoadResult.getItem,
                  hm, hb, hbd, hh, hhd, hcid, hck]
              | ok ck =>
                cases hun : body.getItem "username" with
                | error e =>
                  simp [update_certificate, updParseOk, LoadResult.getItem,
                    hm, hb, hbd, hh, hhd, hcid, hck, hun]
                | ok un =>
                  cases hlk : header.getItem "lms_key" with
                  | error e =>
                    simp [update_certificate, updParseOk, LoadResult.getItem,
                      hm, hb, hbd, hh, hhd, hcid, hck, hun, hlk]
                  | ok lk =>
                    cases hfind : store.find? (fun c => JVal.str c.username == un
                        && c.courseId == ck && JVal.str c.key == lk) with
                    | none =>
                      simp [update_certificate, updParseOk, LoadResult.getItem,
                        hm, hb, hbd, hh, hhd, hcid, hck, hun, hlk, hfind]
                    | some cert =>
                      simp [update_certificate, updParseOk, LoadResult.getItem,
                        hm, hb, hbd, hh, hhd, hcid, hck, hun, hlk, hfind]
  · simp [update_certificate, updParseOk, hm]

/-- A POST whose `xqueue_body` is the valid JSON array `[]`, which
`json.loads` accepts but which is not an object, and whose header is an
object. -/
def listPayloadReq : Request :=
  { method := "POST"
    post := [("xqueue_body", ⟨"[]", LoadResult.nonObj⟩),
             ("xqueue_header", ⟨"header-json", LoadResult.obj lmsHeader⟩)]
    userAuthenticated := false
    username := "student"
    rateLimitExceeded := false }

/-- C9 counterexample: neither handler always returns a structured
response.  On a POST carrying no `xqueue_body`, `update_certificate`
applies `json.loads` to `None`, raising `TypeError`; on a POST whose
`xqueue_body` is the valid non-object JSON `[]`,
`update_example_certificate` passes both `json.loads` calls unharmed and
then `xqueue_body.get` raises an `AttributeError` that its `except`
clauses (ValueError/TypeError, DoesNotExist) do not cover. -/
theorem callback_handlers_raise_on_bad_input :
    emptyPostReq.method = "POST"
    ∧ (update_certificate emptyPostReq []).result = UpdResult.raised PyExn.typeError
    ∧ listPayloadReq.method = "POST"
    ∧ (update_example_certificate listPayloadReq []).response
        = ExResponse.raised PyExn.attributeError :=
  ⟨rfl, rfl, rfl, rfl⟩

/-- C9 (amended): neither handler is total.  `update_example_certificate`
raises an uncaught `AttributeError` exactly on the non-rate-limited
POSTs whose two payload fields are present and load as valid JSON with
at least one non-object value, and answers one of its five documented
structured responses on every other input; `update_certificate` raises
an unhandled exception exactly on the POST inputs failing its unguarded
parsing phase (missing, non-JSON or non-object fields, missing
`course_id`/`username`/`lms_key`, malformed course id); only the
record-lookup miss is converted into a structured response. -/
theorem callback_handlers_error_totality (req : Request)
    (store : List ExampleCertificate) (gstore : List GeneratedCertificate) :
    ((update_example_certificate req store).response
        = ExResponse.raised PyExn.attributeError
      ↔ (req.method = "POST" ∧ req.rateLimitExceeded = false
          ∧ exNonObjPayload req = true))
    ∧ (exNonObjPayload req = false →
        ((update_example_certificate req store).response = ExResponse.methodNotAllowed
        ∨ (update_example_certificate req store).response
            = ExResponse.forbidden "Rate limit exceeded"
        ∨ (∃ m, (update_example_certificate req store).response = ExResponse.badRequest m)
        ∨ (update_example_certificate req store).response = ExResponse.notFound
        ∨ (update_example_certificate req store).response = ExResponse.jsonOk 0))
    ∧ ((∃ e, (update_certificate req gstore).result = UpdResult.raised e)
        ↔ (req.method = "POST" ∧ updParseOk req = false)) :=
  ⟨update_example_certificate_raised_iff req store,
    fun hno => update_example_certificate_structured req store hno,
    update_certificate_raises_iff req gstore⟩

/-! ## Witnesses -/

/-- A rate-limited POST request. -/
def limitedReq : Request :=
  { method := "POST"
    post := []
    userAuthenticated := false
    username := "student"
    rateLimitExceeded := true }

/-- A GET request. -/
def getReq : Request :=
  { method := "GET"
    post := []
    userAuthenticated := true
    username := "student"
    rateLimitExceeded := false }

/-- A decoded legacy callback body with a valid serialized course key. -/
def legacyBody : JObj :=
  ⟨[("course_id", JVal.str "course-v1:edX+Demo+2024"), ("username", JVal.str "student")]⟩

/-- A stored legacy certificate matching `legacyBody` and `lmsHeader`. -/
def legacyCert : GeneratedCertificate :=
  ⟨"student", "course-v1:edX+Demo+2024", "downloadable", "k"⟩

/-- Witness for C1 at evaluation time 0. -/
theorem should_certificate_be_visible_correct_witness :
    ((visibility_test_cases 0).all
      (passesVisibilityCase should_certificate_be_visible 0)) = true :=
  (should_certificate_be_visible_correct 0).1

/-- Witness for C2: a concrete matched error callback on a pending
record answers the success envelope. -/
theorem update_example_certificate_matched_witness :
    exParsed (mkCallbackReq errorBody lmsHeader) = some (errorBody, lmsHeader)
    ∧ lookupExampleCert [pendingCert] (errorBody.getStr "username")
        (lmsHeader.getStr "lms_key") = some pendingCert
    ∧ (update_example_certificate (mkCallbackReq errorBody lmsHeader) [pendingCert]).response
        = ExResponse.jsonOk 0 := by
  have h := update_example_certificate_matched (mkCallbackReq errorBody lmsHeader)
    [pendingCert] errorBody lmsHeader pendingCert (by decide) (by decide)
  refine ⟨by decide, by decide, ?_⟩
  rw [(h.1 (by decide)).1]

/-- Witness for C3: an unknown uuid with the right key and a known uuid
with a wrong key produce the same 404 outcome. -/
theorem update_example_certificate_not_found_witness :
    exParsed (mkCallbackReq unknownBody lmsHeader) = some (unknownBody, lmsHeader)
    ∧ exParsed (mkCallbackReq bareBody wrongHeader) = some (bareBody, wrongHeader)
    ∧ update_example_certificate (mkCallbackReq unknownBody lmsHeader) [pendingCert]
        = ⟨ExResponse.notFound, [pendingCert], 1, 1⟩
    ∧ update_example_certificate (mkCallbackReq unknownBody lmsHeader) [pendingCert]
        = update_example_certificate (mkCallbackReq bareBody wrongHeader) [pendingCert] := by
  have h := update_example_certificate_not_found (mkCallbackReq unknownBody lmsHeader)
    (mkCallbackReq bareBody wrongHeader) [pendingCert] unknownBody lmsHeader bareBody
    wrongHeader (by decide) (by decide) (by decide) (by decide)
  exact ⟨by decide, by decide, h.1, h.2.2⟩

/-- Witness for C4 (amended): an error callback moves a record whose
prior status is the terminal SUCCESS to ERROR. -/
theorem update_example_certificate_status_determined_by_body_witness :
    exParsed (mkCallbackReq errorBody lmsHeader) = some (errorBody, lmsHeader)
    ∧ errorBody.getStr "username" = some pendingCert.uuid
    ∧ lmsHeader.getStr "lms_key" = some pendingCert.access_key
    ∧ ((update_example_certificate (mkCallbackReq errorBody lmsHeader)
        [{ pendingCert with status := CertStatus.success }]).store.map
          ExampleCertificate.status) = [CertStatus.error] := by
  have h := update_example_certificate_status_determined_by_body
    (mkCallbackReq errorBody lmsHeader) errorBody lmsHeader CertStatus.success pendingCert
    (by decide) (by decide) (by decide)
  exact ⟨by decide, by decide, by decide, h.1 (by decide)⟩

/-- Witness for C5: a concrete rate-limited POST is rejected with no
lookup, no tick, and an untouched store. -/
theorem update_example_certificate_rate_limited_witness :
    limitedReq.method = "POST" ∧ limitedReq.rateLimitExceeded = true
    ∧ update_example_certificate limitedReq [pendingCert]
        = ⟨ExResponse.forbidden "Rate limit exceeded", [pendingCert], 0, 0⟩ :=
  ⟨rfl, rfl, update_example_certificate_rate_limited limitedReq [pendingCert] rfl rfl⟩

/-- Witness for C7: the concrete legacy callback answers
`allowlist certificate` on a matching store and `unable to lookup key`
with one critical log on an empty store. -/
theorem update_certificate_responses_witness :
    (mkCallbackReq legacyBody lmsHeader).method = "POST"
    ∧ update_certificate (mkCallbackReq legacyBody lmsHeader) [legacyCert]
        = ⟨UpdResult.response 1 "allowlist certificate", [legacyCert], 0⟩
    ∧ update_certificate (mkCallbackReq legacyBody lmsHeader) []
        = ⟨UpdResult.response 1 "unable to lookup key", [], 1⟩ := by
  have h1 := update_certificate_responses (mkCallbackReq legacyBody lmsHeader) [legacyCert]
    ⟨"body-json", LoadResult.obj legacyBody⟩ ⟨"header-json", LoadResult.obj lmsHeader⟩
    legacyBody lmsHeader
    (JVal.str "course-v1:edX+Demo+2024") "course-v1:edX+Demo+2024"
    (JVal.str "student") (JVal.str "k") rfl (by decide) (by decide) (by decide) (by decide)
    (by decide) (by decide) (by decide) (by decide)
  have h2 := update_certificate_responses (mkCallbackReq legacyBody lmsHeader) []
    ⟨"body-json", LoadResult.obj legacyBody⟩ ⟨"header-json", LoadResult.obj lmsHeader⟩
    legacyBody lmsHeader
    (JVal.str "course-v1:edX+Demo+2024") "course-v1:edX+Demo+2024"
    (JVal.str "student") (JVal.str "k") rfl (by decide) (by decide) (by decide) (by decide)
    (by decide) (by decide) (by decide) (by decide)
  exact ⟨rfl, h1.1 legacyCert (by decide), h2.2 (by decide)⟩

/-- Witness for C8: a concrete anonymous POST answers the sentinel with
no task enqueued. -/
theorem request_certificate_anonymous_witness :
    emptyPostReq.method = "POST" ∧ emptyPostReq.userAuthenticated = false
    ∧ request_certificate (fun _ _ => "downloadable") emptyPostReq
        = ⟨ReqResult.addStatus "ERRORANONYMOUSUSER", 0⟩ :=
  ⟨rfl, rfl, request_certificate_anonymous (fun _ _ => "downloadable") emptyPostReq rfl rfl⟩

/-- Witness for C9 (amended): the characterizations yield the concrete
`AttributeError` on the list-payload POST and the concrete exception on
the field-less POST. -/
theorem callback_handlers_error_totality_witness :
    (update_example_certificate listPayloadReq []).response
        = ExResponse.raised PyExn.attributeError
    ∧ (∃ e, (update_certificate emptyPostReq []).result = UpdResult.raised e) :=
  ⟨(callback_handlers_error_totality listPayloadReq [] []).1.mpr ⟨rfl, rfl, rfl⟩,
    (callback_handlers_error_totality emptyPostReq [] []).2.2.mpr ⟨rfl, rfl⟩⟩

/-- Witness for C10: a concrete GET request. -/
theorem non_post_requests_witness :
    getReq.method ≠ "POST"
    ∧ request_certificate (fun _ _ => "downloadable") getReq = ⟨ReqResult.noResponse, 0⟩
    ∧ update_certificate getReq [] = ⟨UpdResult.noResponse, [], 0⟩
    ∧ update_example_certificate getReq [] = ⟨ExResponse.methodNotAllowed, [], 0, 0⟩ := by
  have h := non_post_requests (fun _ _ => "downloadable") getReq [] [] (by decide)
  exact ⟨by decide, h.1, h.2.1, h.2.2⟩

end Certificates
